import Mathlib

/-!
Verification of the authentication core of the go-web-boilerplate HR API:
password hashing (shared/helpers, x/crypto/bcrypt), token issuance
(Handler.Login, golang-jwt/jwt v5 HS256), token verification
(middlewares.Protected) and the profile handler (Handler.GetMe).

Shallow embedding conventions:
* Go byte strings (passwords, keys) are `List Nat` of byte values.
* Unix timestamps are `Int` (seconds).
* The HMAC function of golang-jwt is idealised as a perfect MAC: the
  signature value records exactly the key, algorithm and payload it was
  computed over, so two signatures agree iff key, algorithm and payload
  agree.  Base64/JSON compact serialisation is abstracted away: a token
  on the wire is either a structurally well-formed token or an opaque
  malformed string.
* The bcrypt core (blowfish expensive key setup) is idealised as a
  collision-free function of the data that actually enters it: by
  x/crypto/blowfish, the password enters `expensiveBlowfishSetup` only
  through `getNextWord`, which reads 18 32-bit words (72 bytes) cyclically
  from `ckey = password ++ [0]` starting at offset 0 on every call.  The
  password preprocessing (NUL append and 72-byte cyclic consumption) is
  embedded faithfully; the blowfish mixing itself is modelled as injective
  in (effective key, cost, salt).
-/

/-! ## HTTP response model (gofiber/fiber v3)

`fiber.Error` values returned from a handler are rendered by fiber's
default error handler as a plain-text body holding the error message.
`c.JSON(fiber.Map{...})` renders a JSON object; a field value is either a
string or a serialised token. -/

inductive Alg
  | HS256
  | HS384
  | HS512
  | RS256
  | ES256
  | None
deriving DecidableEq, Repr

/-- `token.Method.(*jwt.SigningMethodHMAC)` succeeds exactly for the
HS256/HS384/HS512 singletons of golang-jwt. -/
def Alg.isHMAC : Alg → Bool
  | .HS256 => true
  | .HS384 => true
  | .HS512 => true
  | _ => false

/-- The `alg` header string, as interpolated into the keyfunc error. -/
def Alg.algName : Alg → String
  | .HS256 => "HS256"
  | .HS384 => "HS384"
  | .HS512 => "HS512"
  | .RS256 => "RS256"
  | .ES256 => "ES256"
  | .None => "none"

/-- The claims set built by `Handler.Login`: `{"id": ..., "exp": ...}`.
`id` is a string claim, `exp` a numeric-date claim; either may be absent
in a foreign token presented to the verifier. -/
structure JwtClaims where
  id : Option String
  exp : Option Int
deriving DecidableEq, Repr

/-- Idealised HMAC signature value: records the signing key, the header
algorithm and the signed payload.  Signature verification in golang-jwt
recomputes the MAC under the verification key and compares; in the ideal
model that comparison succeeds iff the two `Mac` values are equal. -/
structure Mac where
  key : String
  alg : Alg
  payload : JwtClaims
deriving DecidableEq, Repr

/-- `SigningMethodHMAC.Sign`: deterministic MAC of the signing string
(header+payload) under the byte-slice key. -/
def hmacSign (key : String) (alg : Alg) (payload : JwtClaims) : Mac :=
  ⟨key, alg, payload⟩

/-- A token string handed to `jwt.Parse`: either it splits into three
segments with a decodable header/payload (`token`), or it does not
(`malformed`). -/
inductive TokenWire
  | malformed (raw : String)
  | token (alg : Alg) (claims : JwtClaims) (sig : Mac)
deriving DecidableEq, Repr

inductive JsonVal
  | str (s : String)
  | tok (w : TokenWire)
deriving DecidableEq, Repr

inductive Body
  | text (s : String)
  | json (fields : List (String × JsonVal))
deriving DecidableEq, Repr

structure Response where
  status : Nat
  body : Body
deriving DecidableEq, Repr

/-- A `fiber.Error` (e.g. `fiber.ErrUnauthorized`) rendered by the default
error handler: the status code with the message as plain-text body. -/
def fiberErr (status : Nat) (message : String) : Response :=
  ⟨status, .text message⟩

def errBadRequest : Response := fiberErr 400 "Bad Request"
def errUnauthorized : Response := fiberErr 401 "Unauthorized"
def errNotFound : Response := fiberErr 404 "Not Found"
def errInternalServerError : Response := fiberErr 500 "Internal Server Error"

/-- Does a response body carry a serialised token anywhere? -/
def Body.hasToken : Body → Bool
  | .text _ => false
  | .json fields => fields.any (fun f => match f.2 with | .tok _ => true | .str _ => false)

/-- Does a JSON body carry a field with the given name? -/
def Body.hasField (name : String) : Body → Bool
  | .text _ => false
  | .json fields => fields.any (fun f => f.1 = name)

/-! ## UUIDs (github.com/google/uuid, pgtype.UUID)

`pgtype.UUID.Bytes` is a fixed 16-byte array, modelled as a `List Nat` of
length 16.  `uuid.UUID.String()` hex-encodes the bytes lowercase in
8-4-4-4-12 groups.  `uuid.Parse` is embedded for the length-36 canonical
form, the length-45 `urn:uuid:` form, the length-38 single-leading-wrapper
form (google/uuid strips only the first byte) and the length-32 dashless
form, mirroring the `switch len(s)` in google/uuid `Parse`. -/

def hexChar (n : Nat) : Char :=
  if n < 10 then Char.ofNat (48 + n) else Char.ofNat (87 + n)

def byteHexChars (b : Nat) : List Char :=
  [hexChar ((b / 16) % 16), hexChar (b % 16)]

def bytesToHex (bs : List Nat) : List Char :=
  bs.foldr (fun b acc => byteHexChars b ++ acc) []

/-- `uuid.UUID(bytes).String()`: canonical lowercase 8-4-4-4-12 form.
Only 16-byte lists correspond to Go values; other lengths are modelling
junk mapped to `""`. -/
def uuidString (bs : List Nat) : String :=
  if bs.length = 16 then
    ⟨bytesToHex (bs.take 4) ++ '-' ::
      bytesToHex ((bs.drop 4).take 2) ++ '-' ::
      bytesToHex ((bs.drop 6).take 2) ++ '-' ::
      bytesToHex ((bs.drop 8).take 2) ++ '-' ::
      bytesToHex (bs.drop 10)⟩
  else ""

/-- `xtob`: value of one hex digit, accepting both cases. -/
def hexVal (c : Char) : Option Nat :=
  let n := c.toNat
  if 48 ≤ n ∧ n ≤ 57 then some (n - 48)
  else if 97 ≤ n ∧ n ≤ 102 then some (n - 87)
  else if 65 ≤ n ∧ n ≤ 70 then some (n - 55)
  else none

/-- Decode the hex byte at character positions `i`, `i+1`. -/
def pairAt (cs : List Char) (i : Nat) : Option Nat := do
  let c1 ← cs.get? i
  let c2 ← cs.get? (i + 1)
  let h1 ← hexVal c1
  let h2 ← hexVal c2
  pure (h1 * 16 + h2)

/-- Canonical-form body of `uuid.Parse`: dashes at offsets 8, 13, 18, 23,
sixteen hex pairs at the fixed offsets used by google/uuid. -/
def parseCanonical (cs : List Char) : Option (List Nat) :=
  if cs.get? 8 = some '-' ∧ cs.get? 13 = some '-' ∧
      cs.get? 18 = some '-' ∧ cs.get? 23 = some '-' then
    [0, 2, 4, 6, 9, 11, 14, 16, 19, 21, 24, 26, 28, 30, 32, 34].mapM (pairAt cs)
  else none

/-- Dashless 32-hex-character body of `uuid.Parse`. -/
def parseDashless (cs : List Char) : Option (List Nat) :=
  [0, 2, 4, 6, 8, 10, 12, 14, 16, 18, 20, 22, 24, 26, 28, 30].mapM (pairAt cs)

/-- `uuid.Parse` from google/uuid, by input length. -/
def uuidParse (s : String) : Option (List Nat) :=
  let cs := s.data
  if cs.length = 36 then parseCanonical cs
  else if cs.length = 45 then
    if (cs.take 9).map Char.toLower = "urn:uuid:".data then parseCanonical (cs.drop 9)
    else none
  else if cs.length = 38 then parseCanonical (cs.drop 1)
  else if cs.length = 32 then parseDashless cs
  else none

/-! ## Password hashing (shared/helpers, x/crypto/bcrypt)

`StoredHash` is the parse of a stored bcrypt hash string (`newFromHash`):
cost, salt and the crypt digest; a string that does not parse is
`invalid`. -/

/-- First `n` bytes of the cyclic repetition of `l` (blowfish
`getNextWord`, which wraps its index at `len(key)`). -/
def cycleTake (l : List Nat) (n : Nat) : List Nat :=
  (List.range n).map (fun i => l.getD (i % l.length) 0)

/-- The data through which the password enters the blowfish expensive key
setup: `ckey = password ++ [0]` read cyclically for 18 words = 72 bytes
(every `ExpandKey`/`expandKeyWithSalt` call restarts at offset 0). -/
def bcryptEffectiveKey (password : List Nat) : List Nat :=
  cycleTake (password ++ [0]) 72

/-- Idealised bcrypt crypt core: injective in (effective key, cost, salt),
faithful in that the password enters only via `bcryptEffectiveKey`. -/
structure BcryptDigest where
  effKey : List Nat
  cost : Nat
  salt : List Nat
deriving DecidableEq, Repr

def bcryptCrypt (password : List Nat) (cost : Nat) (salt : List Nat) : BcryptDigest :=
  ⟨bcryptEffectiveKey password, cost, salt⟩

inductive StoredHash
  | bcrypt (cost : Nat) (salt : List Nat) (digest : BcryptDigest)
  | invalid (raw : String)
deriving DecidableEq, Repr

inductive BcryptError
  | passwordTooLong
  | hashTooShort
  | invalidCost
  | mismatchedHashAndPassword
deriving DecidableEq, Repr

def bcryptMinCost : Nat := 4
def bcryptMaxCost : Nat := 31
def bcryptDefaultCost : Nat := 10

/-- `bcrypt.GenerateFromPassword` (modern x/crypto): rejects passwords
over 72 bytes, raises a cost below `MinCost` to `DefaultCost`, rejects a
cost above `MaxCost`, then runs the crypt core over a fresh random salt
(passed here as a parameter). -/
def generateFromPassword (salt : List Nat) (password : List Nat) (cost : Nat) :
    Except BcryptError StoredHash :=
  if password.length > 72 then .error .passwordTooLong
  else
    let cost := if cost < bcryptMinCost then bcryptDefaultCost else cost
    if cost > bcryptMaxCost then .error .invalidCost
    else .ok (.bcrypt cost salt (bcryptCrypt password cost salt))

/-- `helpers.HashPass`: `bcrypt.GenerateFromPassword(password, 17)`. -/
def HashPass (salt : List Nat) (password : List Nat) : Except BcryptError StoredHash :=
  generateFromPassword salt password 17

/-- `helpers.CompareHashAndPassword` = `bcrypt.CompareHashAndPassword`:
re-parse the stored hash, run the crypt core on the candidate password
with the stored cost and salt, constant-time-compare the digests; agree →
nil (`none`), disagree → `ErrMismatchedHashAndPassword`. -/
def CompareHashAndPassword (stored : StoredHash) (password : List Nat) :
    Option BcryptError :=
  match stored with
  | .invalid _ => some .hashTooShort
  | .bcrypt cost salt digest =>
      if bcryptCrypt password cost salt = digest then none
      else some .mismatchedHashAndPassword

/-! ## JWT parsing and validation (golang-jwt/jwt v5, default parser)

`jwt.Parse(tokenString, keyfunc)` with the keyfunc of
`middlewares.Protected`: split/decode (malformed otherwise), call the
keyfunc (which rejects any non-HMAC signing method), verify the signature
under the returned key, then run the default claims validator, in which
`exp` is optional (no `WithExpirationRequired`) and, when present, the
token is valid only while `now` is strictly before `exp` (zero leeway).
Each failure is a distinct wrapped error whose `Error()` string names the
cause. -/

inductive JwtError
  | tokenMalformed
  | keyfuncUnexpectedMethod (algName : String)
  | signatureInvalid
  | tokenExpired
deriving DecidableEq, Repr

/-- `err.Error()` strings of golang-jwt v5 wrapped parse errors. -/
def JwtError.errString : JwtError → String
  | .tokenMalformed =>
      "token is malformed: token contains an invalid number of segments"
  | .keyfuncUnexpectedMethod a =>
      "token is unverifiable: error while executing keyfunc: unexpected signing method: " ++ a
  | .signatureInvalid =>
      "token signature is invalid: signature is invalid"
  | .tokenExpired =>
      "token has invalid claims: token is expired"

/-- `jwt.Parse` with the HMAC-only keyfunc returning `verifyKey`. -/
def jwtParse (now : Int) (verifyKey : String) (w : TokenWire) :
    Except JwtError JwtClaims :=
  match w with
  | .malformed _ => .error .tokenMalformed
  | .token alg claims sig =>
      if alg.isHMAC then
        if sig = hmacSign verifyKey alg claims then
          match claims.exp with
          | none => .ok claims
          | some exp => if now < exp then .ok claims else .error .tokenExpired
        else .error .signatureInvalid
      else .error (.keyfuncUnexpectedMethod alg.algName)

/-- `token.SignedString([]byte(key))` for an HMAC method: the HMAC `Sign`
on a byte-slice key (of any length, including empty) cannot fail; the
error branch of the Go API is kept in the type. -/
def signedString (key : String) (alg : Alg) (claims : JwtClaims) :
    Except Unit TokenWire :=
  .ok (.token alg claims (hmacSign key alg claims))

/-! ## Configuration (internal/hr-api/config)

`globalvars.go` initialises `SECRET_KEY = "qweasd123"` and
`TOKEN_TTL = 5h`; `LoadAllConfig` overwrites `SECRET_KEY` with
`os.Getenv("SECRET_KEY")`, which is the empty string when the variable is
unset.  `middlewares.Protected` does not read the configuration at all:
its keyfunc returns the hardcoded literal `"your-secret-key"`. -/

def secretKeyDefault : String := "qweasd123"

def tokenTTLDefault : Int := 18000

def protectedHardcodedKey : String := "your-secret-key"

/-- `os.Getenv`: empty string when the variable is unset. -/
def osGetenv (env : String → Option String) (k : String) : String :=
  (env k).getD ""

/-- The `SECRET_KEY` assignment of `LoadAllConfig` (config.go line 26). -/
def loadSecretKey (env : String → Option String) : String :=
  osGetenv env "SECRET_KEY"

/-! ## Go dynamic typing of the request-scoped identity

`Protected` stores `token.Claims`, whose dynamic type is the named type
`jwt.MapClaims` (defined as `map[string]interface{}`); `GetMe` retrieves
`c.Locals("user")` with a type assertion to the unnamed type
`map[string]interface{}`.  A Go type assertion to a non-interface type
succeeds only on exact type identity, and a defined type is never
identical to its underlying type. -/

inductive GoMapType
  | jwtMapClaims
  | mapStringInterface
deriving DecidableEq, Repr

/-- A claims map together with its dynamic type tag, as stored in
`c.Locals("user")`. -/
structure GoValue where
  typ : GoMapType
  claims : JwtClaims
deriving DecidableEq, Repr

/-- `c.Locals("user").(map[string]interface{})`: `none` models the failed
assertion (`ok == false`), both for an absent local and for a local whose
dynamic type is not exactly the unnamed map type. -/
def assertUnnamedMap (loc : Option GoValue) : Option JwtClaims :=
  match loc with
  | some v => if v.typ = .mapStringInterface then some v.claims else none
  | none => none

/-! ## Users and repository (repositories.User, sqlc Querier) -/

structure User where
  id : List Nat
  name : String
  email : String
  username : String
  password : StoredHash
deriving DecidableEq, Repr

/-! ## middlewares.Protected -/

/-- The `Authorization` header value: `c.Get` returns `""` both for an
absent and for an empty header, and the raw value (no `Bearer ` stripping)
is fed to `jwt.Parse` otherwise. -/
inductive AuthHeader
  | empty
  | present (w : TokenWire)
deriving DecidableEq, Repr

inductive GateOutcome
  | reject (r : Response)
  | next (user : GoValue)
deriving DecidableEq, Repr

/-- `middlewares.Protected`: empty header → 401 `{"message":
"Unauthorized"}`; parse error → 401 `{"message": "Invalid or expired
token", "error": err.Error()}`; otherwise the `jwt.MapClaims` are stored
in `c.Locals("user")` and the chain continues.  (The `Invalid token
claims` branch is unreachable: the default parser always produces
`jwt.MapClaims`, and `token.Valid` is true whenever `err` is nil.) -/
def Protected (now : Int) (h : AuthHeader) : GateOutcome :=
  match h with
  | .empty => .reject ⟨401, .json [("message", .str "Unauthorized")]⟩
  | .present w =>
      match jwtParse now protectedHardcodedKey w with
      | .error e =>
          .reject ⟨401, .json [("message", .str "Invalid or expired token"),
                               ("error", .str e.errString)]⟩
      | .ok claims => .next ⟨.jwtMapClaims, claims⟩

/-! ## Handler.Login (bcrypt variant, part_003 lines 90-136) -/

structure LoginParams where
  username : String
  password : List Nat
deriving DecidableEq, Repr

/-- `Handler.Login`, with the body-bind result and the repository lookup
as inputs and the signing call abstracted as `sign` so that its error
branch is expressible; the concrete pipeline uses `signedString`, which
never fails. -/
def LoginGeneric (sign : String → Alg → JwtClaims → Except Unit TokenWire)
    (secretKey : String) (now ttl : Int)
    (repo : String → Except Unit User)
    (bind : Except Unit LoginParams) : Response :=
  match bind with
  | .error _ => errBadRequest
  | .ok params =>
      match repo params.username with
      | .error _ => errUnauthorized
      | .ok user =>
          match CompareHashAndPassword user.password params.password with
          | some .mismatchedHashAndPassword => errUnauthorized
          | some _ => errInternalServerError
          | none =>
              let userID := uuidString user.id
              match sign secretKey .HS256 ⟨some userID, some (now + ttl)⟩ with
              | .error _ => errInternalServerError
              | .ok w => ⟨200, .json [("token", .tok w), ("id", .str userID)]⟩

def Login (secretKey : String) (now ttl : Int)
    (repo : String → Except Unit User)
    (bind : Except Unit LoginParams) : Response :=
  LoginGeneric signedString secretKey now ttl repo bind

/-! ## Handler.GetMe (part_006) -/

/-- `Handler.GetMe`: assert the local to the unnamed map type, read the
`id` claim as a string, `uuid.Parse` it, look the user up by id, and
render id/name/email/username (never the password hash). -/
def GetMe (getUser : List Nat → Except Unit User)
    (loc : Option GoValue) : Response :=
  match assertUnnamedMap loc with
  | none => errUnauthorized
  | some claims =>
      match claims.id with
      | none => errUnauthorized
      | some idStr =>
          match uuidParse idStr with
          | none => errUnauthorized
          | some uid =>
              match getUser uid with
              | .error _ => errNotFound
              | .ok user =>
                  ⟨200, .json [("id", .str (uuidString user.id)),
                               ("name", .str user.name),
                               ("email", .str user.email),
                               ("username", .str user.username)]⟩

/-! ## Concrete fixtures (mirroring the repository's handler tests) -/

def uid0 : List Nat := [1, 2, 3, 4, 0, 0, 0, 0, 0, 0, 0, 0, 0, 0, 0, 0]

def uid0Str : String := "01020304-0000-0000-0000-000000000000"

def pw0 : List Nat := [112, 97, 115, 115]

def salt0 : List Nat := [1, 2, 3, 4, 5, 6, 7, 8, 9, 10, 11, 12, 13, 14, 15, 16]

def hash0 : StoredHash := .bcrypt 17 salt0 (bcryptCrypt pw0 17 salt0)

def user0 : User := ⟨uid0, "Test User", "test@example.com", "testuser", hash0⟩

def repo0 : String → Except Unit User :=
  fun uname => if uname = "testuser" then .ok user0 else .error ()

def bind0 : Except Unit LoginParams := .ok ⟨"testuser", pw0⟩

def getUser0 : List Nat → Except Unit User :=
  fun k => if k = uid0 then .ok user0 else .error ()

/-- `user0` with a different stored password hash and nothing else changed. -/
def user0v : User := ⟨uid0, "Test User", "test@example.com", "testuser", .invalid "x"⟩

def getUser0v : List Nat → Except Unit User :=
  fun k => if k = uid0 then .ok user0v else .error ()

/-- A correctly signed but expired token for the gate's hardcoded key. -/
def expiredTok0 : TokenWire :=
  .token .HS256 ⟨some "x", some 5⟩ (hmacSign protectedHardcodedKey .HS256 ⟨some "x", some 5⟩)

def claims0 : JwtClaims := ⟨some uid0Str, some 19000⟩

/-- The token `Handler.Login` issues for `user0` at `now = 1000` with the
default TTL and the default configured secret. -/
def tok0 : TokenWire :=
  .token .HS256 claims0 (hmacSign secretKeyDefault .HS256 claims0)

/-- Equality of stored users up to the stored password hash. -/
def agreeExceptPassword (u v : User) : Prop :=
  u.id = v.id ∧ u.name = v.name ∧ u.email = v.email ∧ u.username = v.username

/-! ## C9: missing credential rejection -/

/-- C9: a request whose Authorization header is absent or empty is
rejected by `Protected` with status 401 and message "Unauthorized"; the
gate returns before any token parsing. -/
theorem missing_authorization_rejected (now : Int) :
    Protected now .empty = .reject ⟨401, .json [("message", .str "Unauthorized")]⟩ :=
  rfl

/-! ## C8: algorithm-substitution defense -/

/-- C8: a token whose header algorithm is not in the HMAC family is
rejected by the gate with 401, whatever its claims and signature: the
keyfunc fails before any signature or expiry check. -/
theorem non_hmac_alg_rejected (now : Int) (alg : Alg) (c : JwtClaims) (sig : Mac)
    (h : alg.isHMAC = false) :
    Protected now (.present (.token alg c sig)) =
      .reject ⟨401, .json [("message", .str "Invalid or expired token"),
        ("error", .str (JwtError.keyfuncUnexpectedMethod alg.algName).errString)]⟩ := by
  simp [Protected, jwtParse, h]

/-- C8 witness: a well-formed, unexpired RS256 token is rejected. -/
theorem non_hmac_alg_rejected_witness :
    Protected 1000 (.present (.token .RS256 ⟨some uid0Str, some 2000⟩
        (hmacSign protectedHardcodedKey .RS256 ⟨some uid0Str, some 2000⟩))) =
      .reject ⟨401, .json [("message", .str "Invalid or expired token"),
        ("error", .str (JwtError.keyfuncUnexpectedMethod "RS256").errString)]⟩ :=
  non_hmac_alg_rejected 1000 .RS256 ⟨some uid0Str, some 2000⟩
    (hmacSign protectedHardcodedKey .RS256 ⟨some uid0Str, some 2000⟩) rfl

/-! ## C2: expiry enforcement -/

/-- C2 counterexample: a correctly signed HMAC token carrying no `exp`
claim at all is accepted by the gate (golang-jwt v5's default validator
treats `exp` as optional), refuting the part of the claim that says a
token with an absent `exp` is rejected. -/
theorem missing_exp_token_accepted :
    Protected 1000 (.present (.token .HS256 ⟨some "x", none⟩
        (hmacSign protectedHardcodedKey .HS256 ⟨some "x", none⟩))) =
      .next ⟨.jwtMapClaims, ⟨some "x", none⟩⟩ :=
  rfl

/-- C2 amended: for a correctly signed HMAC token, verification accepts
when `exp` is absent; when `exp` is present it rejects as expired exactly
when `exp <= now` (so the boundary `exp == now` is rejected) and accepts
when `now < exp`. -/
theorem jwt_expiry_enforcement (now : Int) (key : String) (alg : Alg) (c : JwtClaims)
    (halg : alg.isHMAC = true) :
    (c.exp = none → jwtParse now key (.token alg c (hmacSign key alg c)) = .ok c) ∧
    (∀ e, c.exp = some e → e ≤ now →
      jwtParse now key (.token alg c (hmacSign key alg c)) = .error .tokenExpired) ∧
    (∀ e, c.exp = some e → now < e →
      jwtParse now key (.token alg c (hmacSign key alg c)) = .ok c) := by
  refine ⟨fun h => ?_, fun e h hle => ?_, fun e h hlt => ?_⟩
  · simp [jwtParse, halg, h]
  · simp [jwtParse, halg, h, Int.not_lt.mpr hle]
  · simp [jwtParse, halg, h, hlt]

/-- C2 witness: at `now = 5`, a token with `exp = 5` (the boundary) is
rejected as expired. -/
theorem jwt_expiry_enforcement_witness :
    jwtParse 5 "k" (.token .HS256 ⟨some "x", some 5⟩
      (hmacSign "k" .HS256 ⟨some "x", some 5⟩)) = .error .tokenExpired :=
  (jwt_expiry_enforcement 5 "k" .HS256 ⟨some "x", some 5⟩ rfl).2.1 5 rfl (by decide)

/-! ## C3: verifier failure non-leakage -/

/-- C3 counterexample: a malformed token and an expired token both yield
401 with the same generic message, but the two client-visible responses
differ in the `error` field, which carries the cause-specific
`err.Error()` string — so the rejection is not identical across failure
causes. -/
theorem verifier_error_leak :
    Protected 1000 (.present (.malformed "x")) =
      .reject ⟨401, .json [("message", .str "Invalid or expired token"),
        ("error", .str JwtError.tokenMalformed.errString)]⟩ ∧
    Protected 1000 (.present expiredTok0) =
      .reject ⟨401, .json [("message", .str "Invalid or expired token"),
        ("error", .str JwtError.tokenExpired.errString)]⟩ ∧
    Protected 1000 (.present (.malformed "x")) ≠ Protected 1000 (.present expiredTok0) := by
  refine ⟨rfl, rfl, ?_⟩
  decide

/-- C3 amended: every verification failure is rejected with the same
status 401 and the same generic message field, but the response body also
carries an `error` field holding the underlying error string, which
distinguishes the failure cause. -/
theorem verifier_rejection_shape (now : Int) (w : TokenWire) (e : JwtError)
    (h : jwtParse now protectedHardcodedKey w = .error e) :
    Protected now (.present w) =
      .reject ⟨401, .json [("message", .str "Invalid or expired token"),
        ("error", .str e.errString)]⟩ := by
  simp [Protected, h]

/-- C3 witness: the shape theorem applied to a malformed token. -/
theorem verifier_rejection_shape_witness :
    Protected 1000 (.present (.malformed "x")) =
      .reject ⟨401, .json [("message", .str "Invalid or expired token"),
        ("error", .str JwtError.tokenMalformed.errString)]⟩ :=
  verifier_rejection_shape 1000 (.malformed "x") .tokenMalformed rfl

/-! ## C1: issuance / verification round trip -/

/-- C1 (code bug): with the configured secret at its in-source default
`"qweasd123"`, a successful login issues a token carrying the user's
canonical UUID in the `id` claim, but `Protected` — whose keyfunc returns
the hardcoded literal `"your-secret-key"` instead of the configured
secret — rejects that very token immediately after issuance with a
signature failure. -/
theorem login_token_rejected_by_gate :
    Login secretKeyDefault 1000 tokenTTLDefault repo0 bind0 =
      ⟨200, .json [("token", .tok tok0), ("id", .str uid0Str)]⟩ ∧
    Protected 1000 (.present tok0) =
      .reject ⟨401, .json [("message", .str "Invalid or expired token"),
        ("error", .str JwtError.signatureInvalid.errString)]⟩ := by
  constructor
  · decide
  · decide

/-! ## C6: empty-secret issuance -/

/-- C6 counterexample: with `SECRET_KEY` unset in the environment,
`LoadAllConfig` stores the empty string, and a successful login silently
issues a token HMAC-signed with the empty key — issuance does not fail. -/
theorem empty_secret_login_succeeds :
    loadSecretKey (fun _ => none) = "" ∧
    Login "" 1000 tokenTTLDefault repo0 bind0 =
      ⟨200, .json [("token", .tok (.token .HS256 claims0 (hmacSign "" .HS256 claims0))),
        ("id", .str uid0Str)]⟩ := by
  constructor
  · rfl
  · decide

/-- C6 amended: when the configured signing secret is the empty string,
token issuance succeeds for any authenticated user and returns a token
signed with the empty key; no error path is taken. -/
theorem empty_secret_issuance (now ttl : Int) (repo : String → Except Unit User)
    (bind : Except Unit LoginParams) (p : LoginParams) (u : User)
    (hb : bind = .ok p) (hr : repo p.username = .ok u)
    (hc : CompareHashAndPassword u.password p.password = none) :
    Login "" now ttl repo bind =
      ⟨200, .json [("token", .tok (.token .HS256
          ⟨some (uuidString u.id), some (now + ttl)⟩
          (hmacSign "" .HS256 ⟨some (uuidString u.id), some (now + ttl)⟩))),
        ("id", .str (uuidString u.id))]⟩ := by
  simp [Login, LoginGeneric, hb, hr, hc, signedString]

/-- C6 witness: the empty-secret issuance at the concrete fixture. -/
theorem empty_secret_issuance_witness :
    Login "" 1000 tokenTTLDefault repo0 bind0 =
      ⟨200, .json [("token", .tok (.token .HS256
          ⟨some (uuidString user0.id), some (1000 + tokenTTLDefault)⟩
          (hmacSign "" .HS256 ⟨some (uuidString user0.id), some (1000 + tokenTTLDefault)⟩))),
        ("id", .str (uuidString user0.id))]⟩ :=
  empty_secret_issuance 1000 tokenTTLDefault repo0 bind0 ⟨"testuser", pw0⟩ user0
    rfl rfl (by decide)

/-! ## C5: login failure classification -/

/-- C5: body-bind failure → 400; user-lookup failure → 401; password
mismatch → 401; a comparison error other than the bcrypt mismatch → 500;
a token-signing error → 500; and a 401 response never carries a token. -/
theorem login_failure_classification
    (sign : String → Alg → JwtClaims → Except Unit TokenWire)
    (secret : String) (now ttl : Int) (repo : String → Except Unit User)
    (bind : Except Unit LoginParams) :
    (∀ u, bind = .error u → LoginGeneric sign secret now ttl repo bind = errBadRequest) ∧
    (∀ p u, bind = .ok p → repo p.username = .error u →
      LoginGeneric sign secret now ttl repo bind = errUnauthorized) ∧
    (∀ p u, bind = .ok p → repo p.username = .ok u →
      CompareHashAndPassword u.password p.password = some .mismatchedHashAndPassword →
      LoginGeneric sign secret now ttl repo bind = errUnauthorized) ∧
    (∀ p u e, bind = .ok p → repo p.username = .ok u →
      CompareHashAndPassword u.password p.password = some e →
      e ≠ .mismatchedHashAndPassword →
      LoginGeneric sign secret now ttl repo bind = errInternalServerError) ∧
    (∀ p u v, bind = .ok p → repo p.username = .ok u →
      CompareHashAndPassword u.password p.password = none →
      sign secret .HS256 ⟨some (uuidString u.id), some (now + ttl)⟩ = .error v →
      LoginGeneric sign secret now ttl repo bind = errInternalServerError) ∧
    ((LoginGeneric sign secret now ttl repo bind).status = 401 →
      (LoginGeneric sign secret now ttl repo bind).body.hasToken = false) := by
  refine ⟨?_, ?_, ?_, ?_, ?_, ?_⟩
  · intro u hb
    simp [LoginGeneric, hb]
  · intro p u hb hr
    simp [LoginGeneric, hb, hr]
  · intro p u hb hr hc
    simp [LoginGeneric, hb, hr, hc]
  · intro p u e hb hr hc hne
    cases e with
    | mismatchedHashAndPassword => exact absurd rfl hne
    | passwordTooLong => simp [LoginGeneric, hb, hr, hc]
    | hashTooShort => simp [LoginGeneric, hb, hr, hc]
    | invalidCost => simp [LoginGeneric, hb, hr, hc]
  · intro p u v hb hr hc hs
    simp [LoginGeneric, hb, hr, hc, hs]
  · intro h401
    rcases hb : bind with u | p
    · simp [LoginGeneric, hb, errBadRequest, fiberErr, Body.hasToken]
    · rcases hr : repo p.username with u | usr
      · simp [LoginGeneric, hb, hr, errUnauthorized, fiberErr, Body.hasToken]
      · rcases hc : CompareHashAndPassword usr.password p.password with _ | e
        · rcases hs : sign secret .HS256 ⟨some (uuidString usr.id), some (now + ttl)⟩ with v | w
          · simp [LoginGeneric, hb, hr, hc, hs, errInternalServerError, fiberErr, Body.hasToken]
          · exfalso
            simp [LoginGeneric, hb, hr, hc, hs] at h401
        · cases e <;>
            simp [LoginGeneric, hb, hr, hc, errUnauthorized, errInternalServerError,
              fiberErr, Body.hasToken]

/-- C5 witness: a wrong password against the stored bcrypt hash yields
the unauthorized classification. -/
theorem login_failure_classification_witness :
    LoginGeneric signedString "k" 0 5 repo0 (.ok ⟨"testuser", [1, 2]⟩) = errUnauthorized :=
  (login_failure_classification signedString "k" 0 5 repo0
    (.ok ⟨"testuser", [1, 2]⟩)).2.2.1 ⟨"testuser", [1, 2]⟩ user0 rfl rfl (by decide)

/-! ## C4: gate-to-handler identity handoff -/

/-- C4: the identity `Protected` attaches has dynamic type
`jwt.MapClaims`, while `GetMe` asserts the unnamed
`map[string]interface{}` type; the assertion therefore fails for every
gate-attached identity, `GetMe` answers unauthorized regardless of the
token's validity, and a 200 from `GetMe` is possible only for an identity
attached with the unnamed map type. -/
theorem gate_identity_type_mismatch (now : Int) (w : TokenWire) (gv : GoValue)
    (getUser : List Nat → Except Unit User)
    (hnext : Protected now (.present w) = .next gv) :
    GetMe getUser (some gv) = errUnauthorized ∧
    (∀ g loc, (GetMe g (some loc)).status = 200 → loc.typ = .mapStringInterface) := by
  constructor
  · have htyp : gv.typ = .jwtMapClaims := by
      rcases hp : jwtParse now protectedHardcodedKey w with e | claims
      · simp [Protected, hp] at hnext
      · simp [Protected, hp] at hnext
        rw [← hnext]
    simp [GetMe, assertUnnamedMap, htyp]
  · intro g loc h200
    by_cases htyp : loc.typ = .mapStringInterface
    · exact htyp
    · exfalso
      simp [GetMe, assertUnnamedMap, htyp, errUnauthorized, fiberErr] at h200

/-- C4 witness: even for a perfectly valid token signed with the gate's
own hardcoded key, the identity the gate attaches makes `GetMe` answer
unauthorized. -/
theorem gate_identity_type_mismatch_witness :
    GetMe getUser0 (some ⟨.jwtMapClaims, ⟨some uid0Str, some 2000⟩⟩) = errUnauthorized :=
  (gate_identity_type_mismatch 1000
    (.token .HS256 ⟨some uid0Str, some 2000⟩
      (hmacSign protectedHardcodedKey .HS256 ⟨some uid0Str, some 2000⟩))
    ⟨.jwtMapClaims, ⟨some uid0Str, some 2000⟩⟩ getUser0 (by decide)).1

/-! ## C7: password verify correctness -/

/-- C7 counterexample: bcrypt's password preprocessing appends a NUL and
reads the result cyclically, so the distinct plaintexts `"a"` and
`"a\x00a"` have the same effective key; verifying the second against the
hash of the first returns success (nil), not the mismatch error. -/
theorem bcrypt_nul_cycling_collision :
    ([97] : List Nat) ≠ [97, 0, 97] ∧
    HashPass salt0 [97] = .ok (.bcrypt 17 salt0 (bcryptCrypt [97] 17 salt0)) ∧
    CompareHashAndPassword (.bcrypt 17 salt0 (bcryptCrypt [97] 17 salt0)) [97, 0, 97] = none := by
  refine ⟨by decide, rfl, by decide⟩

/-- C7 amended: for a password of at most 72 bytes, verifying it against
its own hash succeeds, and verifying any candidate against that hash
succeeds exactly when the candidate's bcrypt effective key (the 72-byte
cyclic expansion of password plus NUL) coincides with the original's —
otherwise it fails with precisely the mismatch classification. -/
theorem bcrypt_verify_classification (salt p1 : List Nat) (st : StoredHash)
    (h72 : p1.length ≤ 72) (hh : HashPass salt p1 = .ok st) :
    CompareHashAndPassword st p1 = none ∧
    (∀ p2, CompareHashAndPassword st p2 =
      if bcryptEffectiveKey p2 = bcryptEffectiveKey p1 then none
      else some .mismatchedHashAndPassword) := by
  have hst : st = .bcrypt 17 salt (bcryptCrypt p1 17 salt) := by
    unfold HashPass generateFromPassword at hh
    rw [if_neg (by omega)] at hh
    simp [bcryptMinCost, bcryptMaxCost] at hh
    exact hh.symm
  subst hst
  refine ⟨by simp [CompareHashAndPassword], fun p2 => ?_⟩
  by_cases hk : bcryptEffectiveKey p2 = bcryptEffectiveKey p1
  · simp [CompareHashAndPassword, bcryptCrypt, hk]
  · simp [CompareHashAndPassword, bcryptCrypt, hk]

/-- C7 witness: the fixture password verifies against its own hash, and a
different-effective-key candidate fails with the mismatch error. -/
theorem bcrypt_verify_classification_witness :
    CompareHashAndPassword hash0 pw0 = none ∧
    CompareHashAndPassword hash0 [1, 2] =
      (if bcryptEffectiveKey [1, 2] = bcryptEffectiveKey pw0 then none
       else some .mismatchedHashAndPassword) :=
  ⟨(bcrypt_verify_classification salt0 pw0 hash0 (by decide) rfl).1,
   (bcrypt_verify_classification salt0 pw0 hash0 (by decide) rfl).2 [1, 2]⟩

/-! ## C10: password hash confidentiality -/

/-- C10: no `GetMe` response body carries a `password` field, and two
user stores that agree except for stored password hashes produce
identical `GetMe` responses on every request. -/
theorem password_hash_confidentiality
    (g1 g2 : List Nat → Except Unit User) (loc : Option GoValue)
    (hag : ∀ k, (g1 k = .error () ∧ g2 k = .error ()) ∨
      (∃ u v, g1 k = .ok u ∧ g2 k = .ok v ∧ agreeExceptPassword u v)) :
    (∀ g loc2, (GetMe g loc2).body.hasField "password" = false) ∧
    GetMe g1 loc = GetMe g2 loc := by
  constructor
  · intro g loc2
    rcases ha : assertUnnamedMap loc2 with _ | claims
    · simp [GetMe, ha, errUnauthorized, fiberErr, Body.hasField]
    · rcases hid : claims.id with _ | idStr
      · simp [GetMe, ha, hid, errUnauthorized, fiberErr, Body.hasField]
      · rcases hu : uuidParse idStr with _ | uid
        · simp [GetMe, ha, hid, hu, errUnauthorized, fiberErr, Body.hasField]
        · rcases hg : g uid with u | usr
          · simp [GetMe, ha, hid, hu, hg, errNotFound, fiberErr, Body.hasField]
          · simp [GetMe, ha, hid, hu, hg, Body.hasField]
  · rcases ha : assertUnnamedMap loc with _ | claims
    · simp [GetMe, ha]
    · rcases hid : claims.id with _ | idStr
      · simp [GetMe, ha, hid]
      · rcases hu : uuidParse idStr with _ | uid
        · simp [GetMe, ha, hid, hu]
        · rcases hag uid with ⟨h1, h2⟩ | ⟨u, v, h1, h2, hidq, hnq, heq, husq⟩
          · simp [GetMe, ha, hid, hu, h1, h2]
          · simp [GetMe, ha, hid, hu, h1, h2, hidq, hnq, heq, husq]

/-- The fixture stores differ only in `user0`'s stored password hash. -/
theorem getUser0_agree_aux :
    ∀ k, (getUser0 k = .error () ∧ getUser0v k = .error ()) ∨
      (∃ u v, getUser0 k = .ok u ∧ getUser0v k = .ok v ∧ agreeExceptPassword u v) := by
  intro k
  by_cases hk : k = uid0
  · right
    exact ⟨user0, user0v, by simp [getUser0, hk], by simp [getUser0v, hk],
      rfl, rfl, rfl, rfl⟩
  · left
    exact ⟨by simp [getUser0, hk], by simp [getUser0v, hk]⟩

/-- C10 witness: at a valid attached identity, the fixture stores give a
password-free body and identical responses. -/
theorem password_hash_confidentiality_witness :
    (GetMe getUser0 (some ⟨.mapStringInterface, ⟨some uid0Str, none⟩⟩)).body.hasField
        "password" = false ∧
    GetMe getUser0 (some ⟨.mapStringInterface, ⟨some uid0Str, none⟩⟩) =
      GetMe getUser0v (some ⟨.mapStringInterface, ⟨some uid0Str, none⟩⟩) :=
  ⟨(password_hash_confidentiality getUser0 getUser0v
      (some ⟨.mapStringInterface, ⟨some uid0Str, none⟩⟩) getUser0_agree_aux).1 getUser0
      (some ⟨.mapStringInterface, ⟨some uid0Str, none⟩⟩),
   (password_hash_confidentiality getUser0 getUser0v
      (some ⟨.mapStringInterface, ⟨some uid0Str, none⟩⟩) getUser0_agree_aux).2⟩
